import Mathlib

/-!
Shallow embedding of the Foundation Models Go bridge (fm.go) for
verification of its host-side logic.

Modelling conventions:
- Go strings in the high-level API are Lean `String`s; `len` on a Go string
  is a byte count, modelled with `String.utf8ByteSize`.
- The C-string marshalling layer (`cString` / `goString`) works on raw byte
  sequences, modelled as `List Nat`.
- Native (Swift shim) entry points reached through purego syscalls are
  modelled as oracle parameters; each wrapper additionally reports whether
  the native entry point was invoked (`nativeCalled`), so that claims about
  "the native side is not called" are expressible.
- JSON numbers decoded by encoding/json are Go float64 values; they are
  modelled as rationals, which is exact for every value the claims touch
  (the integrality test `v != float64(int64(v))` becomes a denominator
  test).
- `error` values are modelled as `Except String` carrying the exact message
  the Go code formats (fmt float formatting via `formatFloat` below).
-/

namespace FM

/-- A single-quote character as a string, used by the Go format string of
the unknown-tool message in executeTool. -/
def squote : String := String.singleton (Char.ofNat 39)

/-- estimateTokens from fm.go: `len(text) / 4` where `len` of a Go string
counts bytes. -/
def estimateTokens (text : String) : Nat :=
  text.utf8ByteSize / 4

/-- cString from fm.go: append a terminating 0 byte to the string bytes. -/
def cString (s : List Nat) : List Nat := s ++ [0]

/-- goString from fm.go: scan the buffer up to the first 0 byte and copy
those bytes (a nil pointer yields the empty string; a buffer with no 0 byte
would read past the end in C, modelled here as taking the whole buffer). -/
def goString (cstr : List Nat) : List Nat := cstr.takeWhile (fun b => b != 0)

/-- A Go `any` value as produced by encoding/json plus the plain Go ints
accepted by the validators (the int/int32/int64 branches collapse to `int`,
float64/float32 to `num`). -/
inductive GoValue where
  | str (s : String)
  | num (v : ℚ)
  | int (v : Int)
  | bool (b : Bool)
  | arr (xs : List GoValue)
  | obj (fields : List (String × GoValue))

/-- A Go `map[string]any` argument map. -/
abbrev ArgsMap := List (String × GoValue)

/-- ToolResult from fm.go (Content, Error). -/
structure ToolResult where
  content : String
  error : String

/-- A registered Tool: Name, Description, Execute; `validate` is `some`
exactly when the dynamic type assertion `tool.(ValidatedTool)` succeeds,
and returns the validation error message if validation fails. -/
structure Tool where
  name : String
  description : String
  validate : Option (ArgsMap → Option String)
  execute : ArgsMap → ToolResult × Option String

/-- The process-wide toolRegistry / per-session registeredTools map. -/
abbrev Registry := List (String × Tool)

/-- Go map assignment `m[k] = v`: overwrite any existing entry for `k`. -/
def mapSet (m : Registry) (k : String) (v : Tool) : Registry :=
  (k, v) :: m.filter (fun p => p.1 != k)

/-- The tail of executeTool: run tool.Execute and fold a host-level error
into the result's Error field; the Bool records that Execute was invoked. -/
def runExecute (tool : Tool) (args : ArgsMap) : ToolResult × Bool :=
  match tool.execute args with
  | (toolResult, some msg) => ({ toolResult with error := msg }, true)
  | (toolResult, none) => (toolResult, true)

/-- executeTool after a successful registry lookup: parse arguments
(`parsedArgs` is the outcome of json.Unmarshal on the argument buffer),
optionally validate, then execute. The Bool records whether Execute ran. -/
def executeFound (tool : Tool) (parsedArgs : Except String ArgsMap) : ToolResult × Bool :=
  match parsedArgs with
  | .error msg => ({ content := "", error := "failed to parse arguments: " ++ msg }, false)
  | .ok args =>
    match tool.validate with
    | some vfn =>
      match vfn args with
      | some msg => ({ content := "", error := "validation failed: " ++ msg }, false)
      | none => runExecute tool args
    | none => runExecute tool args

/-- executeTool from fm.go. The Go function returns the JSON serialization
of the ToolResult; the result value itself is modelled here, together with
a flag telling whether tool.Execute was invoked. -/
def executeTool (registry : Registry) (toolName : String)
    (parsedArgs : Except String ArgsMap) : ToolResult × Bool :=
  match registry.lookup toolName with
  | none =>
    ({ content := "", error := "tool " ++ squote ++ toolName ++ squote ++ " not found" }, false)
  | some tool => executeFound tool parsedArgs

/-- Pad a digit string with leading zeros to width n (helper for the
fractional part of fmt %f). -/
def padZeros (s : String) (n : Nat) : String :=
  String.mk (List.replicate (n - s.length) (Char.ofNat 48)) ++ s

/-- Go fmt %f rendering of a float64 value (6 decimal places, rounded to
nearest), used by the numeric validation error messages. -/
def formatFloat (q : ℚ) : String :=
  let sign := if q < 0 then "-" else ""
  let scaled : Int := round (|q| * 1000000)
  sign ++ toString (scaled / 1000000) ++ "." ++ padZeros (toString (scaled % 1000000)) 6

/-- Go fmt %T rendering of the dynamic type of a decoded JSON value. -/
def goTypeName : GoValue → String
  | .str _ => "string"
  | .num _ => "float64"
  | .int _ => "int"
  | .bool _ => "bool"
  | .arr _ => "[]interface \x7b\x7d"
  | .obj _ => "map[string]interface \x7b\x7d"

/-- ToolArgument from fm.go (validation metadata of one declared tool
argument). Go *int / *float64 option fields become Option Int / Option ℚ. -/
structure ToolArgument where
  name : String
  type : String
  description : String
  required : Bool
  minLength : Option Int
  maxLength : Option Int
  minimum : Option ℚ
  maximum : Option ℚ
  pattern : Option String
  enum : List GoValue

/-- The Go comparison `str == enumVal` between a string and an `any` enum
entry: true only when the entry's dynamic type is string with equal text. -/
def enumMatches (str : String) : GoValue → Bool
  | .str s2 => str == s2
  | _ => false

/-- Enum check at the end of validateStringArgument: only runs when the
enum list is non-empty; any matching entry accepts. -/
def stringEnumCheck (str : String) (argDef : ToolArgument) : Except String Unit :=
  if argDef.enum.isEmpty then .ok ()
  else if argDef.enum.any (enumMatches str) then .ok ()
  else .error "value not in allowed enum values"

/-- Pattern check of validateStringArgument; `rmatch` models
regexp.MatchString (error = invalid pattern). -/
def stringPatternCheck (rmatch : String → String → Except String Bool)
    (str : String) (argDef : ToolArgument) : Except String Unit :=
  match argDef.pattern with
  | some pat =>
    match rmatch pat str with
    | .error e => .error ("invalid regex pattern: " ++ e)
    | .ok false => .error ("string does not match pattern: " ++ pat)
    | .ok true => stringEnumCheck str argDef
  | none => stringEnumCheck str argDef

/-- MaxLength check of validateStringArgument (Go `len` counts bytes). -/
def stringMaxCheck (rmatch : String → String → Except String Bool)
    (str : String) (argDef : ToolArgument) : Except String Unit :=
  match argDef.maxLength with
  | some maxLen =>
    if (str.utf8ByteSize : Int) > maxLen then
      .error ("string too long: " ++ toString (str.utf8ByteSize : Int) ++ " > " ++ toString maxLen)
    else stringPatternCheck rmatch str argDef
  | none => stringPatternCheck rmatch str argDef

/-- validateStringArgument from fm.go: type, length bounds, pattern, enum,
in source order with early return on the first violation. -/
def validateStringArgument (rmatch : String → String → Except String Bool)
    (value : GoValue) (argDef : ToolArgument) : Except String Unit :=
  match value with
  | .str str =>
    match argDef.minLength with
    | some minLen =>
      if (str.utf8ByteSize : Int) < minLen then
        .error ("string too short: " ++ toString (str.utf8ByteSize : Int) ++ " < " ++ toString minLen)
      else stringMaxCheck rmatch str argDef
    | none => stringMaxCheck rmatch str argDef
  | g => .error ("expected string, got " ++ goTypeName g)

/-- The numeric switch of validateNumberArgument: float64/float32/int/int32/
int64 all coerce to float64. -/
def numberValue : GoValue → Option ℚ
  | .num v => some v
  | .int v => some (v : ℚ)
  | _ => none

/-- Maximum-bound check of validateNumberArgument. -/
def numberMaxCheck (num : ℚ) (argDef : ToolArgument) : Except String Unit :=
  match argDef.maximum with
  | some maxv =>
    if num > maxv then
      .error ("number too large: " ++ formatFloat num ++ " > " ++ formatFloat maxv)
    else .ok ()
  | none => .ok ()

/-- validateNumberArgument from fm.go. -/
def validateNumberArgument (value : GoValue) (argDef : ToolArgument) : Except String Unit :=
  match numberValue value with
  | none => .error ("expected number, got " ++ goTypeName value)
  | some num =>
    match argDef.minimum with
    | some minv =>
      if num < minv then
        .error ("number too small: " ++ formatFloat num ++ " < " ++ formatFloat minv)
      else numberMaxCheck num argDef
    | none => numberMaxCheck num argDef

/-- The integer switch of validateIntegerArgument: plain ints pass through;
a float64 is accepted only when it has no fractional part (the Go test
`v != float64(int64(v))`, exact on rationals as a denominator test). -/
def integerValue : GoValue → Except String Int
  | .int v => .ok v
  | .num v =>
    if v.den == 1 then .ok v.num
    else .error "expected integer, got float with decimal part"
  | g => .error ("expected integer, got " ++ goTypeName g)

/-- Maximum-bound check of validateIntegerArgument (compared as float64). -/
def integerMaxCheck (num : Int) (argDef : ToolArgument) : Except String Unit :=
  match argDef.maximum with
  | some maxv =>
    if (num : ℚ) > maxv then
      .error ("integer too large: " ++ toString num ++ " > " ++ formatFloat maxv)
    else .ok ()
  | none => .ok ()

/-- validateIntegerArgument from fm.go. -/
def validateIntegerArgument (value : GoValue) (argDef : ToolArgument) : Except String Unit :=
  match integerValue value with
  | .error e => .error e
  | .ok num =>
    match argDef.minimum with
    | some minv =>
      if (num : ℚ) < minv then
        .error ("integer too small: " ++ toString num ++ " < " ++ formatFloat minv)
      else integerMaxCheck num argDef
    | none => integerMaxCheck num argDef

/-- validateBooleanArgument from fm.go. -/
def validateBooleanArgument (value : GoValue) (_argDef : ToolArgument) : Except String Unit :=
  match value with
  | .bool _ => .ok ()
  | g => .error ("expected boolean, got " ++ goTypeName g)

/-- validateArrayArgument from fm.go. -/
def validateArrayArgument (value : GoValue) (_argDef : ToolArgument) : Except String Unit :=
  match value with
  | .arr _ => .ok ()
  | g => .error ("expected array, got " ++ goTypeName g)

/-- validateObjectArgument from fm.go. -/
def validateObjectArgument (value : GoValue) (_argDef : ToolArgument) : Except String Unit :=
  match value with
  | .obj _ => .ok ()
  | g => .error ("expected object, got " ++ goTypeName g)

/-- validateArgumentValue from fm.go: dispatch on the declared type. -/
def validateArgumentValue (rmatch : String → String → Except String Bool)
    (value : GoValue) (argDef : ToolArgument) : Except String Unit :=
  if argDef.type == "string" then validateStringArgument rmatch value argDef
  else if argDef.type == "number" then validateNumberArgument value argDef
  else if argDef.type == "integer" then validateIntegerArgument value argDef
  else if argDef.type == "boolean" then validateBooleanArgument value argDef
  else if argDef.type == "array" then validateArrayArgument value argDef
  else if argDef.type == "object" then validateObjectArgument value argDef
  else .error ("unsupported argument type: " ++ argDef.type)

/-- First loop of ValidateToolArguments: every required argument must be
present in the argument map. -/
def checkRequired (args : ArgsMap) : List ToolArgument → Except String Unit
  | [] => .ok ()
  | argDef :: rest =>
    if argDef.required && (args.lookup argDef.name).isNone then
      .error ("missing required argument: " ++ argDef.name)
    else checkRequired args rest

/-- Second loop of ValidateToolArguments: validate each provided argument
against its definition, skipping optional arguments that were not given. -/
def checkValues (rmatch : String → String → Except String Bool)
    (args : ArgsMap) : List ToolArgument → Except String Unit
  | [] => .ok ()
  | argDef :: rest =>
    match args.lookup argDef.name with
    | none => checkValues rmatch args rest
    | some value =>
      match validateArgumentValue rmatch value argDef with
      | .error e => .error ("invalid argument " ++ argDef.name ++ ": " ++ e)
      | .ok _ => checkValues rmatch args rest

/-- ValidateToolArguments from fm.go: required-argument loop, then the
per-value validation loop. -/
def ValidateToolArguments (rmatch : String → String → Except String Bool)
    (args : ArgsMap) (argDefs : List ToolArgument) : Except String Unit :=
  match checkRequired args argDefs with
  | .error e => .error e
  | .ok _ => checkValues rmatch args argDefs

/-- MAX_CONTEXT_SIZE from fm.go. -/
def MAX_CONTEXT_SIZE : Nat := 4096

/-- GenerationOptions from fm.go; float32 fields become rationals (they are
only forwarded to the native side). -/
structure GenerationOptions where
  maxTokens : Option Int
  temperature : Option ℚ
  topP : Option ℚ
  topK : Option Int
  presencePenalty : Option ℚ
  frequencyPenalty : Option ℚ
  stopSequences : List String
  seed : Option Int

/-- Session from fm.go: native handle (none once released or never
created), context accounting, instructions and per-session tool map. -/
structure Session where
  ptr : Option Nat
  contextSize : Nat
  maxContextSize : Nat
  systemInstructions : String
  registeredTools : Registry

/-- GetContextSize from fm.go. -/
def GetContextSize (s : Session) : Nat := s.contextSize

/-- GetMaxContextSize from fm.go. -/
def GetMaxContextSize (s : Session) : Nat := s.maxContextSize

/-- GetRegisteredTools from fm.go: the session's registered tool names. -/
def GetRegisteredTools (s : Session) : List String :=
  s.registeredTools.map (fun p => p.1)

/-- The message fmt.Errorf builds in validateContextSize. -/
def contextOverflowMessage (s : Session) (newText : String) : String :=
  "context size would exceed limit: current=" ++ toString s.contextSize ++
    ", new=" ++ toString (estimateTokens newText) ++ ", max=" ++ toString s.maxContextSize

/-- validateContextSize from fm.go: error when the estimated prompt tokens
would push the counter past the limit. -/
def validateContextSize (s : Session) (newText : String) : Option String :=
  let newTokens := estimateTokens newText
  if s.contextSize + newTokens > s.maxContextSize then
    some (contextOverflowMessage s newText)
  else none

/-- addToContext from fm.go. -/
def addToContext (s : Session) (text : String) : Session :=
  { s with contextSize := s.contextSize + estimateTokens text }

/-- Outcome of one respond-family call: the returned string, the session
state afterwards, and whether the native respond entry point was invoked. -/
structure RespondResult where
  output : String
  session : Session
  nativeCalled : Bool

/-- RespondWithOptions from fm.go; `nativeOpts` models the RespondWithOptions
shim entry point (none = NULL result pointer). -/
def RespondWithOptions (nativeOpts : Nat → String → Int → ℚ → Option String)
    (s : Session) (prompt : String) (maxTokens : Int) (temperature : ℚ) : RespondResult :=
  match s.ptr with
  | none => { output := "Error: Invalid session", session := s, nativeCalled := false }
  | some h =>
    match validateContextSize s prompt with
    | some msg => { output := "Error: " ++ msg, session := s, nativeCalled := false }
    | none =>
      match nativeOpts h prompt maxTokens temperature with
      | none => { output := "Error: No response from FoundationModels", session := s, nativeCalled := true }
      | some response =>
        { output := response
          session := addToContext (addToContext s prompt) response
          nativeCalled := true }

/-- Respond from fm.go: invalid-session check, context pre-flight, then
either delegate to RespondWithOptions (options given, with the source's
defaults) or call the RespondSync entry point. -/
def Respond (nativeSync : Nat → String → Option String)
    (nativeOpts : Nat → String → Int → ℚ → Option String)
    (s : Session) (prompt : String) (options : Option GenerationOptions) : RespondResult :=
  match s.ptr with
  | none => { output := "Error: Invalid session", session := s, nativeCalled := false }
  | some h =>
    match validateContextSize s prompt with
    | some msg => { output := "Error: " ++ msg, session := s, nativeCalled := false }
    | none =>
      match options with
      | some opts =>
        RespondWithOptions nativeOpts s prompt (opts.maxTokens.getD (-1))
          (opts.temperature.getD (7 / 10))
      | none =>
        match nativeSync h prompt with
        | none => { output := "Error: No response from FoundationModels", session := s, nativeCalled := true }
        | some response =>
          { output := response
            session := addToContext (addToContext s prompt) response
            nativeCalled := true }

/-- RespondWithStructuredOutput from fm.go. -/
def RespondWithStructuredOutput (nativeStructured : Nat → String → Option String)
    (s : Session) (prompt : String) : RespondResult :=
  match s.ptr with
  | none => { output := "Error: Invalid session", session := s, nativeCalled := false }
  | some h =>
    match validateContextSize s prompt with
    | some msg => { output := "Error: " ++ msg, session := s, nativeCalled := false }
    | none =>
      match nativeStructured h prompt with
      | none => { output := "Error: No response from FoundationModels", session := s, nativeCalled := true }
      | some response =>
        { output := response
          session := addToContext (addToContext s prompt) response
          nativeCalled := true }

/-- RespondWithTools from fm.go. -/
def RespondWithTools (nativeTools : Nat → String → Option String)
    (s : Session) (prompt : String) : RespondResult :=
  match s.ptr with
  | none => { output := "Error: Invalid session", session := s, nativeCalled := false }
  | some h =>
    match validateContextSize s prompt with
    | some msg => { output := "Error: " ++ msg, session := s, nativeCalled := false }
    | none =>
      match nativeTools h prompt with
      | none => { output := "Error: No response from FoundationModels", session := s, nativeCalled := true }
      | some response =>
        { output := response
          session := addToContext (addToContext s prompt) response
          nativeCalled := true }

/-- Release from fm.go: call the native release only when the pointer is
still set, then clear it; the Bool records whether the native release ran. -/
def Release (s : Session) : Session × Bool :=
  match s.ptr with
  | some _ => ({ s with ptr := none }, true)
  | none => (s, false)

/-- Outcome of RegisterTool / ClearTools: the Go error value, session and
process-wide registry afterwards, and whether the native entry point ran. -/
structure RegisterResult where
  result : Except String Unit
  session : Session
  registry : Registry
  nativeCalled : Bool

/-- RegisterTool from fm.go: invalid-session check, then store the tool in
the session map and the process-wide registry, then call the native
register entry point (whose int result `nativeResult` is 0 on failure).
json.Marshal of the two-string ToolDefinition cannot fail and the
marshalled JSON is only forwarded to the native side, so it is elided. -/
def RegisterTool (nativeResult : Nat) (s : Session) (reg : Registry) (tool : Tool) : RegisterResult :=
  match s.ptr with
  | none => { result := .error "invalid session", session := s, registry := reg, nativeCalled := false }
  | some _ =>
    let s2 := { s with registeredTools := mapSet s.registeredTools tool.name tool }
    let reg2 := mapSet reg tool.name tool
    if nativeResult == 0 then
      { result := .error "failed to register tool in Swift shim"
        session := s2, registry := reg2, nativeCalled := true }
    else
      { result := .ok (), session := s2, registry := reg2, nativeCalled := true }

/-- ClearTools from fm.go: invalid-session check, delete every session tool
name from the process-wide registry, reset the session map, then call the
native clear entry point. -/
def ClearTools (nativeResult : Nat) (s : Session) (reg : Registry) : RegisterResult :=
  match s.ptr with
  | none => { result := .error "invalid session", session := s, registry := reg, nativeCalled := false }
  | some _ =>
    let reg2 := reg.filter (fun p => (s.registeredTools.lookup p.1).isNone)
    let s2 := { s with registeredTools := [] }
    if nativeResult == 0 then
      { result := .error "failed to clear tools in Swift shim"
        session := s2, registry := reg2, nativeCalled := true }
    else
      { result := .ok (), session := s2, registry := reg2, nativeCalled := true }

/-- Oracles for purego Dlopen/Dlsym: the shim library open outcome, the
libc open outcome, and symbol resolution per (handle, symbol name). -/
structure DlOracle where
  dlopenShim : Except String Nat
  dlopenLibc : Except String Nat
  dlsym : Nat → String → Except String Nat

/-- The fully resolved function-pointer table of initializeShim. -/
structure ShimTable where
  createSess : Nat
  createSessionWithInstructions : Nat
  releaseSession : Nat
  checkModelAvailability : Nat
  respondSync : Nat
  respondWithStructuredOutput : Nat
  respondWithTools : Nat
  respondWithOptions : Nat
  getModelInfo : Nat
  registerTool : Nat
  clearTools : Nat
  setToolCallback : Nat
  libcFree : Nat

/-- A Dlsym step of initializeShim: on failure, wrap the error with the
source's "failed to load <name>: " message. -/
def loadSym (symName : String) (r : Except String Nat) : Except String Nat :=
  match r with
  | .error e => .error ("failed to load " ++ symName ++ ": " ++ e)
  | .ok v => .ok v

/-- The shim entry points resolved by initializeShim, in resolution order. -/
def requiredSymbols : List String :=
  ["CreateSession", "CreateSessionWithInstructions", "ReleaseSession",
   "CheckModelAvailability", "RespondSync", "RespondWithStructuredOutput",
   "RespondWithTools", "RespondWithOptions", "GetModelInfo", "RegisterTool",
   "ClearTools", "SetToolCallback"]

/-- initializeShim from fm.go: open the shim library, resolve every entry
point in source order, open libc and resolve free; the first failure aborts
the whole initialization with the source's error message. -/
def initializeShim (shimPath : String) (o : DlOracle) : Except String ShimTable :=
  match o.dlopenShim with
  | .error e => .error ("failed to load libFMShim.dylib from " ++ shimPath ++ ": " ++ e)
  | .ok shimLib =>
  match loadSym "CreateSession" (o.dlsym shimLib "CreateSession") with
  | .error e => .error e
  | .ok createSess =>
  match loadSym "CreateSessionWithInstructions"
      (o.dlsym shimLib "CreateSessionWithInstructions") with
  | .error e => .error e
  | .ok createSessionWithInstructions =>
  match loadSym "ReleaseSession" (o.dlsym shimLib "ReleaseSession") with
  | .error e => .error e
  | .ok releaseSession =>
  match loadSym "CheckModelAvailability" (o.dlsym shimLib "CheckModelAvailability") with
  | .error e => .error e
  | .ok checkModelAvailability =>
  match loadSym "RespondSync" (o.dlsym shimLib "RespondSync") with
  | .error e => .error e
  | .ok respondSync =>
  match loadSym "RespondWithStructuredOutput"
      (o.dlsym shimLib "RespondWithStructuredOutput") with
  | .error e => .error e
  | .ok respondWithStructuredOutput =>
  match loadSym "RespondWithTools" (o.dlsym shimLib "RespondWithTools") with
  | .error e => .error e
  | .ok respondWithTools =>
  match loadSym "RespondWithOptions" (o.dlsym shimLib "RespondWithOptions") with
  | .error e => .error e
  | .ok respondWithOptions =>
  match loadSym "GetModelInfo" (o.dlsym shimLib "GetModelInfo") with
  | .error e => .error e
  | .ok getModelInfo =>
  match loadSym "RegisterTool" (o.dlsym shimLib "RegisterTool") with
  | .error e => .error e
  | .ok registerTool =>
  match loadSym "ClearTools" (o.dlsym shimLib "ClearTools") with
  | .error e => .error e
  | .ok clearTools =>
  match loadSym "SetToolCallback" (o.dlsym shimLib "SetToolCallback") with
  | .error e => .error e
  | .ok setToolCallback =>
  match o.dlopenLibc with
  | .error e => .error ("failed to load libc: " ++ e)
  | .ok libcHandle =>
  match loadSym "free function" (o.dlsym libcHandle "free") with
  | .error e => .error e
  | .ok libcFree =>
    .ok { createSess := createSess
          createSessionWithInstructions := createSessionWithInstructions
          releaseSession := releaseSession
          checkModelAvailability := checkModelAvailability
          respondSync := respondSync
          respondWithStructuredOutput := respondWithStructuredOutput
          respondWithTools := respondWithTools
          respondWithOptions := respondWithOptions
          getModelInfo := getModelInfo
          registerTool := registerTool
          clearTools := clearTools
          setToolCallback := setToolCallback
          libcFree := libcFree }

/-- The shimInitialized flag set by the package init function: true exactly
when initializeShim returned without error. -/
def shimInitialized (shimPath : String) (o : DlOracle) : Bool :=
  match initializeShim shimPath o with
  | .ok _ => true
  | .error _ => false

/-- NewSession from fm.go: nil unless the shim is initialized and the
native CreateSession call (`createResult`, 0 = NULL) succeeds. -/
def NewSession (shimPath : String) (o : DlOracle) (createResult : Nat) : Option Session :=
  if shimInitialized shimPath o then
    if createResult == 0 then none
    else some { ptr := some createResult, contextSize := 0,
                maxContextSize := MAX_CONTEXT_SIZE, systemInstructions := "",
                registeredTools := [] }
  else none

/-- NewSessionWithInstructions from fm.go: like NewSession but the context
counter is seeded with the estimated instruction tokens (the long-
instructions branch only prints a warning and changes no state). -/
def NewSessionWithInstructions (shimPath : String) (o : DlOracle)
    (instructions : String) (createResult : Nat) : Option Session :=
  if shimInitialized shimPath o then
    if createResult == 0 then none
    else some { ptr := some createResult, contextSize := estimateTokens instructions,
                maxContextSize := MAX_CONTEXT_SIZE, systemInstructions := instructions,
                registeredTools := [] }
  else none

/-- One Respond call in a scripted conversation: the native side is set up
to answer `pr.1` with `pr.2`. -/
def respondStep (s : Session) (pr : String × String) : RespondResult :=
  Respond (fun _ _ => some pr.2) (fun _ _ _ _ => some pr.2) s pr.1 none

/-- Run a list of scripted Respond calls, threading the session state. -/
def runResponds : Session → List (String × String) → Session
  | s, [] => s
  | s, pr :: rest => runResponds (respondStep s pr).session rest

/-- Every scripted Respond call actually reached the native side (no
invalid-session or context-overflow early return). -/
def allSucceed : Session → List (String × String) → Bool
  | _, [] => true
  | s, pr :: rest => (respondStep s pr).nativeCalled && allSucceed (respondStep s pr).session rest

/-- Total estimated tokens of a scripted conversation: prompt plus response
per step. -/
def stepsTokens (steps : List (String × String)) : Nat :=
  (steps.map (fun pr => estimateTokens pr.1 + estimateTokens pr.2)).sum

/-! Theorems. -/

/-- C2: estimateTokens is the byte length of the text divided by 4 with
floor (integer) division, and is 0 on the empty string. -/
theorem c2_estimate_tokens_floor_div (text : String) :
    estimateTokens text = text.utf8ByteSize / 4 ∧
    4 * estimateTokens text ≤ text.utf8ByteSize ∧
    text.utf8ByteSize < 4 * estimateTokens text + 4 ∧
    estimateTokens "" = 0 := by
  refine ⟨rfl, ?_, ?_, rfl⟩ <;> · unfold estimateTokens; omega

lemma takeWhile_nonzero_append_zero (s : List Nat) :
    (s ++ [0]).takeWhile (fun b => b != 0) = s.takeWhile (fun b => b != 0) := by
  induction s with
  | nil => rfl
  | cons a t ih =>
    by_cases h : a = 0 <;> simp [List.takeWhile_cons, h, ih]

lemma takeWhile_nonzero_of_not_mem (s : List Nat) (h : 0 ∉ s) :
    s.takeWhile (fun b => b != 0) = s := by
  induction s with
  | nil => rfl
  | cons a t ih =>
    simp only [List.mem_cons, not_or] at h
    simp [List.takeWhile_cons, Ne.symm h.1, ih h.2]

/-- C4: marshalling a Go string to a C string and reading it back yields
exactly the bytes before the first 0 byte; in particular strings without an
embedded 0 byte round-trip unchanged. -/
theorem c4_cstring_roundtrip (s : List Nat) :
    goString (cString s) = s.takeWhile (fun b => b != 0) ∧
    (0 ∉ s → goString (cString s) = s) := by
  refine ⟨takeWhile_nonzero_append_zero s, fun h => ?_⟩
  rw [goString, cString, takeWhile_nonzero_append_zero s, takeWhile_nonzero_of_not_mem s h]

/-- Witness for C4 at a concrete null-free byte string. -/
theorem c4_cstring_roundtrip_witness :
    0 ∉ [104, 105] ∧ goString (cString [104, 105]) = [104, 105] :=
  ⟨by decide, (c4_cstring_roundtrip [104, 105]).2 (by decide)⟩

lemma invalid_session_ops (s2 : Session) (h2 : s2.ptr = none)
    (nativeSync nativeStructured nativeTools : Nat → String → Option String)
    (nativeOpts : Nat → String → Int → ℚ → Option String)
    (prompt : String) (options : Option GenerationOptions) (maxTokens : Int)
    (temperature : ℚ) (reg : Registry) (tool : Tool) (nres cres : Nat) :
    Release s2 = (s2, false) ∧
    Respond nativeSync nativeOpts s2 prompt options =
      { output := "Error: Invalid session", session := s2, nativeCalled := false } ∧
    RespondWithStructuredOutput nativeStructured s2 prompt =
      { output := "Error: Invalid session", session := s2, nativeCalled := false } ∧
    RespondWithTools nativeTools s2 prompt =
      { output := "Error: Invalid session", session := s2, nativeCalled := false } ∧
    RespondWithOptions nativeOpts s2 prompt maxTokens temperature =
      { output := "Error: Invalid session", session := s2, nativeCalled := false } ∧
    RegisterTool nres s2 reg tool =
      { result := .error "invalid session", session := s2, registry := reg,
        nativeCalled := false } ∧
    ClearTools cres s2 reg =
      { result := .error "invalid session", session := s2, registry := reg,
        nativeCalled := false } := by
  refine ⟨?_, ?_, ?_, ?_, ?_, ?_, ?_⟩ <;>
    simp [Release, Respond, RespondWithStructuredOutput, RespondWithTools,
      RespondWithOptions, RegisterTool, ClearTools, h2]

/-- C7: Release clears the native pointer; a second Release performs no
native call and changes nothing; every subsequent operation (the Respond
family, RegisterTool, ClearTools) returns an error value without invoking
any native entry point and without mutating host state. -/
theorem c7_release_invalidates_session (s : Session)
    (nativeSync nativeStructured nativeTools : Nat → String → Option String)
    (nativeOpts : Nat → String → Int → ℚ → Option String)
    (prompt : String) (options : Option GenerationOptions) (maxTokens : Int)
    (temperature : ℚ) (reg : Registry) (tool : Tool) (nres cres : Nat) :
    (Release s).1.ptr = none ∧
    Release (Release s).1 = ((Release s).1, false) ∧
    Respond nativeSync nativeOpts (Release s).1 prompt options =
      { output := "Error: Invalid session", session := (Release s).1, nativeCalled := false } ∧
    RespondWithStructuredOutput nativeStructured (Release s).1 prompt =
      { output := "Error: Invalid session", session := (Release s).1, nativeCalled := false } ∧
    RespondWithTools nativeTools (Release s).1 prompt =
      { output := "Error: Invalid session", session := (Release s).1, nativeCalled := false } ∧
    RespondWithOptions nativeOpts (Release s).1 prompt maxTokens temperature =
      { output := "Error: Invalid session", session := (Release s).1, nativeCalled := false } ∧
    RegisterTool nres (Release s).1 reg tool =
      { result := .error "invalid session", session := (Release s).1, registry := reg,
        nativeCalled := false } ∧
    ClearTools cres (Release s).1 reg =
      { result := .error "invalid session", session := (Release s).1, registry := reg,
        nativeCalled := false } := by
  have hp : (Release s).1.ptr = none := by
    unfold Release; cases hsp : s.ptr <;> simp [hsp]
  exact ⟨hp, (invalid_session_ops (Release s).1 hp nativeSync nativeStructured nativeTools
    nativeOpts prompt options maxTokens temperature reg tool nres cres).1,
    (invalid_session_ops _ hp nativeSync nativeStructured nativeTools nativeOpts prompt
      options maxTokens temperature reg tool nres cres).2.1,
    (invalid_session_ops _ hp nativeSync nativeStructured nativeTools nativeOpts prompt
      options maxTokens temperature reg tool nres cres).2.2.1,
    (invalid_session_ops _ hp nativeSync nativeStructured nativeTools nativeOpts prompt
      options maxTokens temperature reg tool nres cres).2.2.2.1,
    (invalid_session_ops _ hp nativeSync nativeStructured nativeTools nativeOpts prompt
      options maxTokens temperature reg tool nres cres).2.2.2.2.1,
    (invalid_session_ops _ hp nativeSync nativeStructured nativeTools nativeOpts prompt
      options maxTokens temperature reg tool nres cres).2.2.2.2.2.1,
    (invalid_session_ops _ hp nativeSync nativeStructured nativeTools nativeOpts prompt
      options maxTokens temperature reg tool nres cres).2.2.2.2.2.2⟩

/-- C5: executeTool is a total function into ToolResult values (the Go
function returns their JSON serialization, never throwing): an unknown
name yields the not-found error; an argument-parse failure yields the
parse error; a validation failure yields the validation error without
invoking Execute; a host-level error from Execute is folded into the
result's error field. -/
theorem c5_execute_tool_total_errors (reg : Registry) (toolName : String) :
    (reg.lookup toolName = none → ∀ pargs,
      executeTool reg toolName pargs =
        ({ content := "", error := "tool " ++ squote ++ toolName ++ squote ++ " not found" },
          false)) ∧
    (∀ tool, reg.lookup toolName = some tool →
      (∀ msg, executeTool reg toolName (.error msg) =
        ({ content := "", error := "failed to parse arguments: " ++ msg }, false)) ∧
      (∀ vfn args msg, tool.validate = some vfn → vfn args = some msg →
        executeTool reg toolName (.ok args) =
          ({ content := "", error := "validation failed: " ++ msg }, false)) ∧
      (∀ args, (tool.validate = none ∨ ∃ vfn, tool.validate = some vfn ∧ vfn args = none) →
        (∀ tr emsg, tool.execute args = (tr, some emsg) →
          executeTool reg toolName (.ok args) = ({ tr with error := emsg }, true)) ∧
        (∀ tr, tool.execute args = (tr, none) →
          executeTool reg toolName (.ok args) = (tr, true)))) := by
  constructor
  · intro h pargs
    simp [executeTool, h]
  · intro tool h
    refine ⟨?_, ?_, ?_⟩
    · intro msg
      simp [executeTool, h, executeFound]
    · intro vfn args msg hv hm
      simp [executeTool, h, executeFound, hv, hm]
    · intro args hval
      constructor
      · intro tr emsg hex
        rcases hval with hnone | ⟨vfn, hv, hok⟩
        · simp [executeTool, h, executeFound, runExecute, hnone, hex]
        · simp [executeTool, h, executeFound, runExecute, hv, hok, hex]
      · intro tr hex
        rcases hval with hnone | ⟨vfn, hv, hok⟩
        · simp [executeTool, h, executeFound, runExecute, hnone, hex]
        · simp [executeTool, h, executeFound, runExecute, hv, hok, hex]

/-- A concrete calculator-like tool used by witnesses. -/
def sampleTool : Tool :=
  { name := "calculate", description := "evaluates arithmetic",
    validate := none,
    execute := fun _ => ({ content := "4", error := "" }, none) }

/-- Witness for C5: a missing tool produces the not-found result, and the
sample tool executes through the success path. -/
theorem c5_execute_tool_total_errors_witness :
    executeTool [] "calculate" (.ok []) =
      ({ content := "", error := "tool " ++ squote ++ "calculate" ++ squote ++ " not found" },
        false) ∧
    executeTool [("calculate", sampleTool)] "calculate" (.ok []) =
      ({ content := "4", error := "" }, true) :=
  ⟨(c5_execute_tool_total_errors [] "calculate").1 rfl (.ok []),
   ((c5_execute_tool_total_errors [("calculate", sampleTool)] "calculate").2 sampleTool
      rfl).2.2 [] (Or.inl rfl) |>.2 { content := "4", error := "" } rfl⟩

/-- C6: ValidateToolArguments reports a missing required number argument
with the exact message; rejects an out-of-enum string; rejects an integer
below its minimum; and validateArgumentValue rejects any float with a
non-zero fractional part for an integer argument. -/
theorem c6_validation_checks :
    (∀ rmatch, ValidateToolArguments rmatch []
        [{ name := "a", type := "number", description := "", required := true,
           minLength := none, maxLength := none, minimum := none, maximum := none,
           pattern := none, enum := [] }] =
      .error "missing required argument: a") ∧
    (∀ rmatch, ValidateToolArguments rmatch [("op", GoValue.str "multiply")]
        [{ name := "op", type := "string", description := "", required := true,
           minLength := none, maxLength := none, minimum := none, maximum := none,
           pattern := none, enum := [GoValue.str "add", GoValue.str "subtract"] }] =
      .error "invalid argument op: value not in allowed enum values") ∧
    (∀ rmatch, ValidateToolArguments rmatch [("n", GoValue.int (-1))]
        [{ name := "n", type := "integer", description := "", required := true,
           minLength := none, maxLength := none, minimum := some 0, maximum := none,
           pattern := none, enum := [] }] =
      .error "invalid argument n: integer too small: -1 < 0.000000") ∧
    (∀ rmatch (argDef : ToolArgument) (q : ℚ), argDef.type = "integer" → q.den ≠ 1 →
      validateArgumentValue rmatch (GoValue.num q) argDef =
        .error "expected integer, got float with decimal part") := by
  refine ⟨fun rmatch => rfl, fun rmatch => rfl, ?_, ?_⟩
  · intro rmatch
    simp [ValidateToolArguments, checkRequired, checkValues, validateArgumentValue,
      validateIntegerArgument, integerValue, formatFloat, padZeros]
    rfl
  · intro rmatch argDef q htype hden
    simp [validateArgumentValue, htype, validateIntegerArgument, integerValue, hden]

/-- Witness for C6: the fractional-float rejection at the concrete value
3/2 against a concrete integer argument definition. -/
theorem c6_validation_checks_witness :
    (3 / 2 : ℚ).den ≠ 1 ∧
    validateArgumentValue (fun _ _ => .ok true) (GoValue.num (3 / 2))
        { name := "n", type := "integer", description := "", required := true,
          minLength := none, maxLength := none, minimum := some 0, maximum := none,
          pattern := none, enum := [] } =
      .error "expected integer, got float with decimal part" :=
  ⟨by norm_num,
   c6_validation_checks.2.2.2 (fun _ _ => .ok true)
     { name := "n", type := "integer", description := "", required := true,
       minLength := none, maxLength := none, minimum := some 0, maximum := none,
       pattern := none, enum := [] } (3 / 2) rfl (by norm_num)⟩

lemma lookup_cons_of_ne {β : Type} (a k : String) (v : β) (l : List (String × β))
    (h : a ≠ k) : List.lookup a ((k, v) :: l) = List.lookup a l := by
  simp [List.lookup, beq_eq_false_iff_ne.mpr h]

lemma checkRequired_cons_unknown (args : ArgsMap) (k : String) (v : GoValue) :
    ∀ argDefs : List ToolArgument, (∀ d ∈ argDefs, d.name ≠ k) →
      checkRequired ((k, v) :: args) argDefs = checkRequired args argDefs := by
  intro argDefs
  induction argDefs with
  | nil => intro _; rfl
  | cons d rest ih =>
    intro hd
    have hdk : d.name ≠ k := hd d (by simp)
    rw [checkRequired, checkRequired, lookup_cons_of_ne d.name k v args hdk,
      ih (fun d2 h2 => hd d2 (by simp [h2]))]

lemma checkValues_cons_unknown (rmatch : String → String → Except String Bool)
    (args : ArgsMap) (k : String) (v : GoValue) :
    ∀ argDefs : List ToolArgument, (∀ d ∈ argDefs, d.name ≠ k) →
      checkValues rmatch ((k, v) :: args) argDefs = checkValues rmatch args argDefs := by
  intro argDefs
  induction argDefs with
  | nil => intro _; rfl
  | cons d rest ih =>
    intro hd
    have hdk : d.name ≠ k := hd d (by simp)
    rw [checkValues, checkValues, lookup_cons_of_ne d.name k v args hdk,
      ih (fun d2 h2 => hd d2 (by simp [h2]))]

/-- C10: ValidateToolArguments only inspects arguments named in the
definition list: adding a key named by no definition never changes the
outcome, and with an empty definition list every argument map validates. -/
theorem c10_unknown_keys_ignored :
    (∀ rmatch (args : ArgsMap), ValidateToolArguments rmatch args [] = .ok ()) ∧
    (∀ rmatch (args : ArgsMap) (argDefs : List ToolArgument) (k : String) (v : GoValue),
      (∀ d ∈ argDefs, d.name ≠ k) →
      ValidateToolArguments rmatch ((k, v) :: args) argDefs =
        ValidateToolArguments rmatch args argDefs) := by
  constructor
  · intro rmatch args; rfl
  · intro rmatch args argDefs k v hk
    rw [ValidateToolArguments, ValidateToolArguments,
      checkRequired_cons_unknown args k v argDefs hk,
      checkValues_cons_unknown rmatch args k v argDefs hk]

/-- Witness for C10: an unrelated extra key does not affect validation
against a definition list naming only "a". -/
theorem c10_unknown_keys_ignored_witness :
    ValidateToolArguments (fun _ _ => .ok true)
        [("unrelated", GoValue.bool true), ("a", GoValue.num 5)]
        [{ name := "a", type := "number", description := "", required := true,
           minLength := none, maxLength := none, minimum := none, maximum := none,
           pattern := none, enum := [] }] =
      ValidateToolArguments (fun _ _ => .ok true) [("a", GoValue.num 5)]
        [{ name := "a", type := "number", description := "", required := true,
           minLength := none, maxLength := none, minimum := none, maximum := none,
           pattern := none, enum := [] }] :=
  c10_unknown_keys_ignored.2 (fun _ _ => .ok true) [("a", GoValue.num 5)]
    [{ name := "a", type := "number", description := "", required := true,
       minLength := none, maxLength := none, minimum := none, maximum := none,
       pattern := none, enum := [] }] "unrelated" (GoValue.bool true)
    (by intro d hd; simp at hd; rw [hd]; decide)

/-- C9: when the native register entry point reports failure (result 0) on
a live session, RegisterTool returns the error, yet the tool has already
been stored in the session's registeredTools map and the process-wide
registry, so GetRegisteredTools lists it and executeTool resolves it —
registration is not rolled back on the error path. -/
theorem c9_register_tool_not_rolled_back (s : Session) (reg : Registry) (tool : Tool)
    (h : Nat) (hptr : s.ptr = some h) :
    (RegisterTool 0 s reg tool).result = .error "failed to register tool in Swift shim" ∧
    (RegisterTool 0 s reg tool).nativeCalled = true ∧
    (RegisterTool 0 s reg tool).session.registeredTools.lookup tool.name = some tool ∧
    (RegisterTool 0 s reg tool).registry.lookup tool.name = some tool ∧
    tool.name ∈ GetRegisteredTools (RegisterTool 0 s reg tool).session ∧
    (∀ pargs, executeTool (RegisterTool 0 s reg tool).registry tool.name pargs =
      executeFound tool pargs) := by
  refine ⟨?_, ?_, ?_, ?_, ?_, ?_⟩ <;>
    simp [RegisterTool, hptr, mapSet, GetRegisteredTools, executeTool, List.lookup]

/-- Witness for C9 on a concrete live session and the sample tool. -/
theorem c9_register_tool_not_rolled_back_witness :
    (RegisterTool 0
        { ptr := some 1, contextSize := 0, maxContextSize := MAX_CONTEXT_SIZE,
          systemInstructions := "", registeredTools := [] }
        [] sampleTool).result = .error "failed to register tool in Swift shim" ∧
    "calculate" ∈ GetRegisteredTools (RegisterTool 0
        { ptr := some 1, contextSize := 0, maxContextSize := MAX_CONTEXT_SIZE,
          systemInstructions := "", registeredTools := [] }
        [] sampleTool).session :=
  ⟨(c9_register_tool_not_rolled_back
      { ptr := some 1, contextSize := 0, maxContextSize := MAX_CONTEXT_SIZE,
        systemInstructions := "", registeredTools := [] } [] sampleTool 1 rfl).1,
   (c9_register_tool_not_rolled_back
      { ptr := some 1, contextSize := 0, maxContextSize := MAX_CONTEXT_SIZE,
        systemInstructions := "", registeredTools := [] } [] sampleTool 1 rfl).2.2.2.2.1⟩

/-- C1: with a valid native handle, every respond-family call whose prompt
would overflow the context returns the overflow error string, does not
invoke the native respond entry point, and leaves the session (hence
contextSize) unchanged; when the prompt fits, the pre-flight check passes
and the native entry point is invoked. -/
theorem c1_respond_context_preflight
    (nativeSync nativeStructured nativeTools : Nat → String → Option String)
    (nativeOpts : Nat → String → Int → ℚ → Option String)
    (s : Session) (h : Nat) (hptr : s.ptr = some h) (prompt : String)
    (options : Option GenerationOptions) (maxTokens : Int) (temperature : ℚ) :
    (s.contextSize + estimateTokens prompt > s.maxContextSize →
      Respond nativeSync nativeOpts s prompt options =
        { output := "Error: " ++ contextOverflowMessage s prompt, session := s,
          nativeCalled := false } ∧
      RespondWithStructuredOutput nativeStructured s prompt =
        { output := "Error: " ++ contextOverflowMessage s prompt, session := s,
          nativeCalled := false } ∧
      RespondWithTools nativeTools s prompt =
        { output := "Error: " ++ contextOverflowMessage s prompt, session := s,
          nativeCalled := false } ∧
      RespondWithOptions nativeOpts s prompt maxTokens temperature =
        { output := "Error: " ++ contextOverflowMessage s prompt, session := s,
          nativeCalled := false }) ∧
    (s.contextSize + estimateTokens prompt ≤ s.maxContextSize →
      (Respond nativeSync nativeOpts s prompt options).nativeCalled = true ∧
      (RespondWithStructuredOutput nativeStructured s prompt).nativeCalled = true ∧
      (RespondWithTools nativeTools s prompt).nativeCalled = true ∧
      (RespondWithOptions nativeOpts s prompt maxTokens temperature).nativeCalled = true) := by
  constructor
  · intro hov
    have hval : validateContextSize s prompt = some (contextOverflowMessage s prompt) := by
      unfold validateContextSize
      rw [if_pos hov]
    refine ⟨?_, ?_, ?_, ?_⟩ <;>
      simp [Respond, RespondWithStructuredOutput, RespondWithTools, RespondWithOptions,
        hptr, hval]
  · intro hle
    have hval : validateContextSize s prompt = none := by
      unfold validateContextSize
      rw [if_neg (by omega)]
    refine ⟨?_, ?_, ?_, ?_⟩
    · cases options with
      | none =>
        simp only [Respond, hptr, hval]
        cases nativeSync h prompt <;> simp
      | some opts =>
        simp only [Respond, RespondWithOptions, hptr, hval]
        cases nativeOpts h prompt (opts.maxTokens.getD (-1)) (opts.temperature.getD (7 / 10)) <;>
          simp
    · simp only [RespondWithStructuredOutput, hptr, hval]
      cases nativeStructured h prompt <;> simp
    · simp only [RespondWithTools, hptr, hval]
      cases nativeTools h prompt <;> simp
    · simp only [RespondWithOptions, hptr, hval]
      cases nativeOpts h prompt maxTokens temperature <;> simp

/-- Witness for C1: a concrete session 10 tokens below the limit rejects a
64-byte prompt without a native call and accepts a 4-byte prompt. -/
theorem c1_respond_context_preflight_witness :
    (Respond (fun _ _ => some "ok") (fun _ _ _ _ => some "ok")
        { ptr := some 1, contextSize := 4086, maxContextSize := MAX_CONTEXT_SIZE,
          systemInstructions := "", registeredTools := [] }
        "0123456789012345678901234567890123456789012345678901234567890123" none).nativeCalled
      = false ∧
    (Respond (fun _ _ => some "ok") (fun _ _ _ _ => some "ok")
        { ptr := some 1, contextSize := 4086, maxContextSize := MAX_CONTEXT_SIZE,
          systemInstructions := "", registeredTools := [] }
        "hiya" none).nativeCalled = true := by
  constructor
  · rw [((c1_respond_context_preflight (fun _ _ => some "ok") (fun _ _ => some "ok")
      (fun _ _ => some "ok") (fun _ _ _ _ => some "ok")
      { ptr := some 1, contextSize := 4086, maxContextSize := MAX_CONTEXT_SIZE,
        systemInstructions := "", registeredTools := [] } 1 rfl
      "0123456789012345678901234567890123456789012345678901234567890123" none 0 0).1
      (by decide)).1]
  · exact ((c1_respond_context_preflight (fun _ _ => some "ok") (fun _ _ => some "ok")
      (fun _ _ => some "ok") (fun _ _ _ _ => some "ok")
      { ptr := some 1, contextSize := 4086, maxContextSize := MAX_CONTEXT_SIZE,
        systemInstructions := "", registeredTools := [] } 1 rfl "hiya" none 0 0).2
      (by decide)).1

lemma respondStep_contextSize (s : Session) (pr : String × String)
    (hc : (respondStep s pr).nativeCalled = true) :
    (respondStep s pr).session.contextSize =
      s.contextSize + (estimateTokens pr.1 + estimateTokens pr.2) := by
  unfold respondStep Respond at hc ⊢
  cases hp : s.ptr with
  | none => simp [hp] at hc
  | some h =>
    cases hval : validateContextSize s pr.1 with
    | some m => simp [hp, hval] at hc
    | none => simp [hp, hval, addToContext, Nat.add_assoc]

lemma runResponds_contextSize (steps : List (String × String)) :
    ∀ s : Session, allSucceed s steps = true →
      (runResponds s steps).contextSize = s.contextSize + stepsTokens steps := by
  induction steps with
  | nil => intro s _; simp [runResponds, stepsTokens]
  | cons pr rest ih =>
    intro s hs
    rw [allSucceed, Bool.and_eq_true] at hs
    rw [runResponds, ih _ hs.2, respondStep_contextSize s pr hs.1]
    simp [stepsTokens, Nat.add_assoc]

/-- C3: a session made by NewSession starts with context seed 0 and one
made by NewSessionWithInstructions with seed estimateTokens(instructions);
after a scripted conversation in which every Respond call succeeds,
GetContextSize is the seed plus the sum over the steps of
estimateTokens(prompt) + estimateTokens(response). -/
theorem c3_context_accounting (shimPath : String) (o : DlOracle) (createResult : Nat)
    (steps : List (String × String)) :
    (∀ s0, NewSession shimPath o createResult = some s0 →
      GetContextSize s0 = 0 ∧
      (allSucceed s0 steps = true →
        GetContextSize (runResponds s0 steps) = 0 + stepsTokens steps)) ∧
    (∀ instructions s0,
      NewSessionWithInstructions shimPath o instructions createResult = some s0 →
      GetContextSize s0 = estimateTokens instructions ∧
      (allSucceed s0 steps = true →
        GetContextSize (runResponds s0 steps) =
          estimateTokens instructions + stepsTokens steps)) := by
  constructor
  · intro s0 hs
    have hctx : s0.contextSize = 0 := by
      unfold NewSession at hs
      split at hs
      · split at hs
        · cases hs
        · cases hs; rfl
      · cases hs
    exact ⟨hctx, fun hsucc => by
      rw [GetContextSize, runResponds_contextSize steps s0 hsucc, hctx]⟩
  · intro instructions s0 hs
    have hctx : s0.contextSize = estimateTokens instructions := by
      unfold NewSessionWithInstructions at hs
      split at hs
      · split at hs
        · cases hs
        · cases hs; rfl
      · cases hs
    exact ⟨hctx, fun hsucc => by
      rw [GetContextSize, runResponds_contextSize steps s0 hsucc, hctx]⟩

/-- Witness for C3: a fully successful initialization, a session from
NewSession, and one scripted exchange of a 4-byte prompt (1 token) and an
8-byte response (2 tokens). -/
theorem c3_context_accounting_witness :
    NewSession "shim" ⟨.ok 1, .ok 1, fun _ _ => .ok 1⟩ 1 =
      some { ptr := some 1, contextSize := 0, maxContextSize := MAX_CONTEXT_SIZE,
             systemInstructions := "", registeredTools := [] } ∧
    GetContextSize (runResponds
      { ptr := some 1, contextSize := 0, maxContextSize := MAX_CONTEXT_SIZE,
        systemInstructions := "", registeredTools := [] }
      [("abcd", "efghijkl")]) = 0 + stepsTokens [("abcd", "efghijkl")] :=
  ⟨rfl,
   ((c3_context_accounting "shim" ⟨.ok 1, .ok 1, fun _ _ => .ok 1⟩ 1
      [("abcd", "efghijkl")]).1
      { ptr := some 1, contextSize := 0, maxContextSize := MAX_CONTEXT_SIZE,
        systemInstructions := "", registeredTools := [] } rfl).2 (by decide)⟩

lemma loadSym_error_shape {symName e : String} {r : Except String Nat}
    (h : loadSym symName r = .error e) :
    ∃ msg, e = "failed to load " ++ symName ++ ": " ++ msg := by
  cases r with
  | error m =>
    simp only [loadSym] at h
    cases h
    exact ⟨m, rfl⟩
  | ok v => simp [loadSym] at h

lemma initializeShim_error_shape (shimPath : String) (o : DlOracle) (e : String)
    (h : initializeShim shimPath o = .error e) :
    (∃ msg, e = "failed to load libFMShim.dylib from " ++ shimPath ++ ": " ++ msg) ∨
    (∃ symName, symName ∈ requiredSymbols ∧
      ∃ msg, e = "failed to load " ++ symName ++ ": " ++ msg) ∨
    (∃ msg, e = "failed to load libc: " ++ msg) ∨
    (∃ msg, e = "failed to load free function: " ++ msg) := by
  unfold initializeShim at h
  cases h0 : o.dlopenShim with
  | error m =>
    simp only [h0] at h
    cases h
    exact Or.inl ⟨m, rfl⟩
  | ok shimLib =>
  simp only [h0] at h
  cases h1 : loadSym "CreateSession" (o.dlsym shimLib "CreateSession") with
  | error e1 =>
    simp only [h1] at h
    cases h
    obtain ⟨msg, hmsg⟩ := loadSym_error_shape h1
    exact Or.inr (Or.inl ⟨"CreateSession", by simp [requiredSymbols], msg, hmsg⟩)
  | ok v1 =>
  simp only [h1] at h
  cases h2 : loadSym "CreateSessionWithInstructions"
      (o.dlsym shimLib "CreateSessionWithInstructions") with
  | error e2 =>
    simp only [h2] at h
    cases h
    obtain ⟨msg, hmsg⟩ := loadSym_error_shape h2
    exact Or.inr (Or.inl ⟨"CreateSessionWithInstructions", by simp [requiredSymbols], msg, hmsg⟩)
  | ok v2 =>
  simp only [h2] at h
  cases h3 : loadSym "ReleaseSession" (o.dlsym shimLib "ReleaseSession") with
  | error e3 =>
    simp only [h3] at h
    cases h
    obtain ⟨msg, hmsg⟩ := loadSym_error_shape h3
    exact Or.inr (Or.inl ⟨"ReleaseSession", by simp [requiredSymbols], msg, hmsg⟩)
  | ok v3 =>
  simp only [h3] at h
  cases h4 : loadSym "CheckModelAvailability" (o.dlsym shimLib "CheckModelAvailability") with
  | error e4 =>
    simp only [h4] at h
    cases h
    obtain ⟨msg, hmsg⟩ := loadSym_error_shape h4
    exact Or.inr (Or.inl ⟨"CheckModelAvailability", by simp [requiredSymbols], msg, hmsg⟩)
  | ok v4 =>
  simp only [h4] at h
  cases h5 : loadSym "RespondSync" (o.dlsym shimLib "RespondSync") with
  | error e5 =>
    simp only [h5] at h
    cases h
    obtain ⟨msg, hmsg⟩ := loadSym_error_shape h5
    exact Or.inr (Or.inl ⟨"RespondSync", by simp [requiredSymbols], msg, hmsg⟩)
  | ok v5 =>
  simp only [h5] at h
  cases h6 : loadSym "RespondWithStructuredOutput"
      (o.dlsym shimLib "RespondWithStructuredOutput") with
  | error e6 =>
    simp only [h6] at h
    cases h
    obtain ⟨msg, hmsg⟩ := loadSym_error_shape h6
    exact Or.inr (Or.inl ⟨"RespondWithStructuredOutput", by simp [requiredSymbols], msg, hmsg⟩)
  | ok v6 =>
  simp only [h6] at h
  cases h7 : loadSym "RespondWithTools" (o.dlsym shimLib "RespondWithTools") with
  | error e7 =>
    simp only [h7] at h
    cases h
    obtain ⟨msg, hmsg⟩ := loadSym_error_shape h7
    exact Or.inr (Or.inl ⟨"RespondWithTools", by simp [requiredSymbols], msg, hmsg⟩)
  | ok v7 =>
  simp only [h7] at h
  cases h8 : loadSym "RespondWithOptions" (o.dlsym shimLib "RespondWithOptions") with
  | error e8 =>
    simp only [h8] at h
    cases h
    obtain ⟨msg, hmsg⟩ := loadSym_error_shape h8
    exact Or.inr (Or.inl ⟨"RespondWithOptions", by simp [requiredSymbols], msg, hmsg⟩)
  | ok v8 =>
  simp only [h8] at h
  cases h9 : loadSym "GetModelInfo" (o.dlsym shimLib "GetModelInfo") with
  | error e9 =>
    simp only [h9] at h
    cases h
    obtain ⟨msg, hmsg⟩ := loadSym_error_shape h9
    exact Or.inr (Or.inl ⟨"GetModelInfo", by simp [requiredSymbols], msg, hmsg⟩)
  | ok v9 =>
  simp only [h9] at h
  cases h10 : loadSym "RegisterTool" (o.dlsym shimLib "RegisterTool") with
  | error e10 =>
    simp only [h10] at h
    cases h
    obtain ⟨msg, hmsg⟩ := loadSym_error_shape h10
    exact Or.inr (Or.inl ⟨"RegisterTool", by simp [requiredSymbols], msg, hmsg⟩)
  | ok v10 =>
  simp only [h10] at h
  cases h11 : loadSym "ClearTools" (o.dlsym shimLib "ClearTools") with
  | error e11 =>
    simp only [h11] at h
    cases h
    obtain ⟨msg, hmsg⟩ := loadSym_error_shape h11
    exact Or.inr (Or.inl ⟨"ClearTools", by simp [requiredSymbols], msg, hmsg⟩)
  | ok v11 =>
  simp only [h11] at h
  cases h12 : loadSym "SetToolCallback" (o.dlsym shimLib "SetToolCallback") with
  | error e12 =>
    simp only [h12] at h
    cases h
    obtain ⟨msg, hmsg⟩ := loadSym_error_shape h12
    exact Or.inr (Or.inl ⟨"SetToolCallback", by simp [requiredSymbols], msg, hmsg⟩)
  | ok v12 =>
  simp only [h12] at h
  cases h13 : o.dlopenLibc with
  | error m =>
    simp only [h13] at h
    cases h
    exact Or.inr (Or.inr (Or.inl ⟨m, rfl⟩))
  | ok libcHandle =>
  simp only [h13] at h
  cases h14 : loadSym "free function" (o.dlsym libcHandle "free") with
  | error e14 =>
    simp only [h14] at h
    cases h
    obtain ⟨msg, hmsg⟩ := loadSym_error_shape h14
    exact Or.inr (Or.inr (Or.inr ⟨msg, hmsg⟩))
  | ok v14 =>
    simp only [h14] at h
    cases h

/-- C8: when initializeShim fails, its error names the failing load step
(the shim library path, one of the required symbols, libc, or the free
function), the initialized flag is false, and both session constructors
return nil — no partially initialized bridge is observable. -/
theorem c8_init_failure_no_partial_bridge (shimPath : String) (o : DlOracle) (e : String)
    (h : initializeShim shimPath o = .error e) :
    shimInitialized shimPath o = false ∧
    (∀ createResult, NewSession shimPath o createResult = none) ∧
    (∀ instructions createResult,
      NewSessionWithInstructions shimPath o instructions createResult = none) ∧
    ((∃ msg, e = "failed to load libFMShim.dylib from " ++ shimPath ++ ": " ++ msg) ∨
     (∃ symName, symName ∈ requiredSymbols ∧
       ∃ msg, e = "failed to load " ++ symName ++ ": " ++ msg) ∨
     (∃ msg, e = "failed to load libc: " ++ msg) ∨
     (∃ msg, e = "failed to load free function: " ++ msg)) := by
  have hsi : shimInitialized shimPath o = false := by
    unfold shimInitialized
    rw [h]
  refine ⟨hsi, ?_, ?_, initializeShim_error_shape shimPath o e h⟩
  · intro createResult
    unfold NewSession
    rw [hsi]
    simp
  · intro instructions createResult
    unfold NewSessionWithInstructions
    rw [hsi]
    simp

/-- Witness for C8: a concrete oracle whose shim library fails to load. -/
theorem c8_init_failure_no_partial_bridge_witness :
    shimInitialized "shim" ⟨.error "boom", .ok 1, fun _ _ => .ok 1⟩ = false ∧
    NewSession "shim" ⟨.error "boom", .ok 1, fun _ _ => .ok 1⟩ 1 = none ∧
    NewSessionWithInstructions "shim" ⟨.error "boom", .ok 1, fun _ _ => .ok 1⟩ "hi" 1 = none :=
  ⟨(c8_init_failure_no_partial_bridge "shim" ⟨.error "boom", .ok 1, fun _ _ => .ok 1⟩
      ("failed to load libFMShim.dylib from shim: boom") rfl).1,
   (c8_init_failure_no_partial_bridge "shim" ⟨.error "boom", .ok 1, fun _ _ => .ok 1⟩
      ("failed to load libFMShim.dylib from shim: boom") rfl).2.1 1,
   (c8_init_failure_no_partial_bridge "shim" ⟨.error "boom", .ok 1, fun _ _ => .ok 1⟩
      ("failed to load libFMShim.dylib from shim: boom") rfl).2.2.1 "hi" 1⟩

end FM
